import Mathlib

/-!
Verification development for the react-native-debugger-external-sync library:
a shallow embedding of the device-side sync coordinator
(src/react-query-external-sync/useSyncQueriesExternal.ts), the remote-command
registry (src/react-query-external-sync/executeExpoCommand.ts) and the
production export switch (src/index.ts), together with theorems about the
targeting router, the query-action dispatcher, the network-monitoring
interceptor lifecycle, the command execution contract and teardown.

The query cache itself is an external collaborator (the tanstack query-core
library); it is modelled here through the narrow interface the coordinator
consumes: per-hash lookup, setState, fetch, silent cancel with revert, and
asynchronous settlement of an in-flight fetch. Opaque data payloads are
modelled as natural numbers.
-/

namespace RQSync

/-- Targeting router, translated from shouldProcessMessage in
useSyncQueriesExternal.ts (lines 84-89): a message applies to this device
iff its targetDeviceId equals the current device id or the broadcast
sentinel "All". -/
def shouldProcessMessage (targetDeviceId currentDeviceId : String) : Bool :=
  targetDeviceId == currentDeviceId || targetDeviceId == "All"

/-- A query function as supplied through query options: either it resolves to
a value, or it never resolves (the synthetic perpetually pending function the
trigger-loading action installs). -/
inductive QueryFn
  | resolves (v : Nat)
  | neverResolves
deriving DecidableEq, Repr

/-- Query options as consumed by the coordinator: only the query function is
relevant to the actions it performs. -/
structure QueryOptions where
  queryFn : QueryFn
deriving DecidableEq, Repr

/-- The fetchMeta side table the coordinator abuses to stash the previous
query options of a query whose state it forcibly overrides. -/
structure FetchMeta where
  previousQueryOptions : Option QueryOptions
deriving DecidableEq, Repr

/-- Query status as used by the coordinator. -/
inductive QueryStatus
  | pending
  | success
  | error
deriving DecidableEq, Repr

/-- Fetch status of a query. -/
inductive FetchStatus
  | fetching
  | paused
  | idle
deriving DecidableEq, Repr

/-- Observable state of one cached query, mirroring the fields the
coordinator reads and writes. -/
structure QueryState where
  status : QueryStatus
  data : Option Nat
  error : Bool
  fetchStatus : FetchStatus
  fetchMeta : Option FetchMeta
  dataUpdatedAt : Nat
  isInvalidated : Bool
deriving DecidableEq, Repr

/-- One live query of the external cache collaborator. revertState is the
state captured when a fetch begins, used by a silent cancel to revert;
inFlight is the query function of the fetch currently in flight, if any. -/
structure Query where
  state : QueryState
  options : QueryOptions
  revertState : Option QueryState
  inFlight : Option QueryFn
deriving DecidableEq, Repr

/-- Cache collaborator operation query.fetch(options): records the state to
revert to on cancellation, marks the query as fetching and puts the supplied
query function in flight. -/
def Query.fetch (q : Query) (options : QueryOptions) : Query :=
  { q with
    options := options
    revertState := some q.state
    inFlight := some options.queryFn
    state := { q.state with fetchStatus := FetchStatus.fetching } }

/-- Cache collaborator operation query.setState(state). -/
def Query.setState (q : Query) (s : QueryState) : Query :=
  { q with state := s }

/-- Cache collaborator operation query.cancel with silent true: a fetch in
flight is aborted without surfacing an error and the query state reverts to
the state captured when that fetch began; cancelling with nothing in flight
is a no-op. -/
def Query.cancel (q : Query) : Query :=
  match q.inFlight with
  | some _ =>
    { q with
      inFlight := none
      state := q.revertState.getD q.state
      revertState := none }
  | none => q

/-- Settlement of the in-flight fetch, the asynchronous completion the
event loop would perform after the handler returns: a resolving query
function delivers its value as fresh successful data; a never-resolving one
leaves the query pending forever. -/
def Query.settle (q : Query) : Query :=
  match q.inFlight with
  | some (QueryFn.resolves v) =>
    { q with
      inFlight := none
      state := { q.state with
        status := QueryStatus.success
        data := some v
        error := false
        fetchStatus := FetchStatus.idle
        isInvalidated := false } }
  | _ => q

/-- ACTION-TRIGGER-LOADING branch of the query-action handler
(useSyncQueriesExternal.ts lines 445-468): fetch with a never-resolving
query function, then force the state to pending with no data, stashing the
previous options in fetchMeta. -/
def triggerLoading (activeQuery : Query) : Query :=
  let previousQueryOptions := activeQuery.options
  let q := activeQuery.fetch { queryFn := QueryFn.neverResolves }
  q.setState
    { q.state with
      data := none
      status := QueryStatus.pending
      fetchMeta := some { previousQueryOptions := some previousQueryOptions } }

/-- ACTION-RESTORE-LOADING branch of the query-action handler
(useSyncQueriesExternal.ts lines 470-494): read the stashed options out of
fetchMeta, cancel the stuck fetch silently, overwrite the state with the
captured state marked idle with fetchMeta cleared, then re-issue the fetch
with the stashed options when they exist. -/
def restoreLoading (activeQuery : Query) : Query :=
  let previousState := activeQuery.state
  let previousOptions :=
    match activeQuery.state.fetchMeta with
    | some m => m.previousQueryOptions
    | none => none
  let q := activeQuery.cancel
  let q := q.setState
    { previousState with fetchStatus := FetchStatus.idle, fetchMeta := none }
  match previousOptions with
  | some opts => q.fetch opts
  | none => q

/-- ACTION-DATA-UPDATE branch: queryClient.setQueryData with a fresh update
timestamp. -/
def setQueryData (q : Query) (d : Option Nat) (now : Nat) : Query :=
  q.setState
    { q.state with
      data := d
      status := QueryStatus.success
      error := false
      dataUpdatedAt := now }

/-- ACTION-TRIGGER-ERROR branch: force the state to error while stashing the
previous options in fetchMeta. -/
def triggerError (q : Query) : Query :=
  let previousQueryOptions := q.options
  q.setState
    { q.state with
      status := QueryStatus.error
      error := true
      fetchMeta := some { previousQueryOptions := some previousQueryOptions } }

/-- The pristine state a reset query returns to. -/
def initialQueryState : QueryState :=
  { status := QueryStatus.pending
    data := none
    error := false
    fetchStatus := FetchStatus.idle
    fetchMeta := none
    dataUpdatedAt := 0
    isInvalidated := false }

/-- queryClient.resetQueries on one query (ACTION-RESET and
ACTION-RESTORE-ERROR branches). -/
def resetQuery (q : Query) : Query :=
  { q with state := initialQueryState, inFlight := none, revertState := none }

/-- ACTION-REFETCH branch: fire the query's own fetch; failures are swallowed
by the handler. -/
def refetchQuery (q : Query) : Query :=
  q.fetch q.options

/-- ACTION-INVALIDATE branch: mark stale and go through the normal refetch
path. -/
def invalidateQuery (q : Query) : Query :=
  (q.setState { q.state with isInvalidated := true }).fetch q.options

/-- Availability of the optional native capabilities probed by the default
command implementations in executeExpoCommand.ts: each flag states that the
corresponding runtime API exists. hasRequire models the availability of
global.require itself. -/
structure GlobalEnv where
  expoReload : Bool
  expoOpenDevMenu : Bool
  hasRequire : Bool
  devSettingsReload : Bool
  devSettingsToggleElementInspector : Bool
  devSettingsTogglePerformanceMonitor : Bool
  devSettingsSetIsDebuggingRemotely : Bool
  devSettingsShow : Bool
  devMenuReload : Bool
  devMenuToggleElementInspector : Bool
  devMenuTogglePerformanceMonitor : Bool
  devMenuToggleRemoteDebugging : Bool
  devMenuShow : Bool
  asyncStorageClear : Bool
  imageLoaderClearCache : Bool
  rnScreenshotTakeScreenshot : Bool
deriving DecidableEq, Repr

/-- Outcome of running one command implementation to completion: either a
native API was invoked, or the informational console notice naming the
override setter was printed. -/
inductive ExecEffect
  | native (api : String)
  | notice (msg : String)
deriving DecidableEq, Repr

/-- A command implementation: given the runtime capabilities it either
completes with an effect or throws with an error message. -/
def ExpoCommandImpl : Type := GlobalEnv → Except String ExecEffect

/-- Default reload implementation (executeExpoCommand.ts lines 90-128):
probe global.__expo.reload, then DevSettings.reload, then DevMenu.reload;
with none available print the notice and return successfully. -/
def executeReload : ExpoCommandImpl := fun env =>
  Except.ok <|
    if env.expoReload then ExecEffect.native "global.__expo.reload"
    else if env.hasRequire && env.devSettingsReload then
      ExecEffect.native "DevSettings.reload"
    else if env.hasRequire && env.devMenuReload then
      ExecEffect.native "DevMenu.reload"
    else ExecEffect.notice "Reload command received but no implementation found. Override with setReloadImplementation() for custom behavior."

/-- Default toggle-inspector implementation (lines 134-166): probe
DevSettings.toggleElementInspector then DevMenu.toggleElementInspector. -/
def executeToggleInspector : ExpoCommandImpl := fun env =>
  Except.ok <|
    if env.hasRequire && env.devSettingsToggleElementInspector then
      ExecEffect.native "DevSettings.toggleElementInspector"
    else if env.hasRequire && env.devMenuToggleElementInspector then
      ExecEffect.native "DevMenu.toggleElementInspector"
    else ExecEffect.notice "Toggle inspector command received but no implementation found. Override with setToggleInspectorImplementation() for custom behavior."

/-- Default toggle-performance-monitor implementation (lines 172-204). -/
def executeTogglePerformanceMonitor : ExpoCommandImpl := fun env =>
  Except.ok <|
    if env.hasRequire && env.devSettingsTogglePerformanceMonitor then
      ExecEffect.native "DevSettings.togglePerformanceMonitor"
    else if env.hasRequire && env.devMenuTogglePerformanceMonitor then
      ExecEffect.native "DevMenu.togglePerformanceMonitor"
    else ExecEffect.notice "Toggle performance monitor command received but no implementation found. Override with setTogglePerformanceMonitorImplementation() for custom behavior."

/-- Default toggle-element-inspector implementation (lines 210-242). -/
def executeToggleElementInspector : ExpoCommandImpl := fun env =>
  Except.ok <|
    if env.hasRequire && env.devSettingsToggleElementInspector then
      ExecEffect.native "DevSettings.toggleElementInspector"
    else if env.hasRequire && env.devMenuToggleElementInspector then
      ExecEffect.native "DevMenu.toggleElementInspector"
    else ExecEffect.notice "Toggle element inspector command received but no implementation found. Override with setToggleElementInspectorImplementation() for custom behavior."

/-- Default clear-cache implementation (lines 248-282): probe
AsyncStorage.clear then ImageLoader.clearCache. -/
def executeClearCache : ExpoCommandImpl := fun env =>
  Except.ok <|
    if env.hasRequire && env.asyncStorageClear then
      ExecEffect.native "AsyncStorage.clear"
    else if env.hasRequire && env.imageLoaderClearCache then
      ExecEffect.native "ImageLoader.clearCache"
    else ExecEffect.notice "Clear cache command received but no implementation found. Override with setClearCacheImplementation() for custom behavior."

/-- Default toggle-remote-debugging implementation (lines 288-322). -/
def executeToggleRemoteDebugging : ExpoCommandImpl := fun env =>
  Except.ok <|
    if env.hasRequire && env.devSettingsSetIsDebuggingRemotely then
      ExecEffect.native "DevSettings.setIsDebuggingRemotely"
    else if env.hasRequire && env.devMenuToggleRemoteDebugging then
      ExecEffect.native "DevMenu.toggleRemoteDebugging"
    else ExecEffect.notice "Toggle remote debugging command received but no implementation found. Override with setToggleRemoteDebuggingImplementation() for custom behavior."

/-- Default open-dev-menu implementation (lines 328-353): probe
global.__expo.openDevMenu then DevMenu.show. -/
def executeOpenDevMenu : ExpoCommandImpl := fun env =>
  Except.ok <|
    if env.expoOpenDevMenu then ExecEffect.native "global.__expo.openDevMenu"
    else if env.hasRequire && env.devMenuShow then
      ExecEffect.native "DevMenu.show"
    else ExecEffect.notice "Open dev menu command received but no implementation found. Override with setOpenDevMenuImplementation() for custom behavior."

/-- Default take-screenshot implementation (lines 359-378): probe
RNScreenshot.takeScreenshot only. -/
def executeTakeScreenshot : ExpoCommandImpl := fun env =>
  Except.ok <|
    if env.hasRequire && env.rnScreenshotTakeScreenshot then
      ExecEffect.native "RNScreenshot.takeScreenshot"
    else ExecEffect.notice "Take screenshot command received but no implementation found. Override with setTakeScreenshotImplementation() for custom behavior."

/-- Default shake-device implementation (lines 384-419): the DevSettings
branch only fires when both DevSettings.reload and DevSettings.show exist
(the source falls through the outer guard when show is absent), then
DevMenu.show is probed. -/
def executeShakeDevice : ExpoCommandImpl := fun env =>
  Except.ok <|
    if env.hasRequire && env.devSettingsReload && env.devSettingsShow then
      ExecEffect.native "DevSettings.show"
    else if env.hasRequire && env.devMenuShow then
      ExecEffect.native "DevMenu.show"
    else ExecEffect.notice "Shake device command received but no implementation found. Override with setShakeDeviceImplementation() for custom behavior."

/-- The command registry: one current implementation per command type,
mirroring the nine overridable module bindings of executeExpoCommand.ts. -/
structure ImplTable where
  reload : ExpoCommandImpl
  toggleInspector : ExpoCommandImpl
  togglePerformanceMonitor : ExpoCommandImpl
  toggleElementInspector : ExpoCommandImpl
  clearCache : ExpoCommandImpl
  toggleRemoteDebugging : ExpoCommandImpl
  openDevMenu : ExpoCommandImpl
  takeScreenshot : ExpoCommandImpl
  shakeDevice : ExpoCommandImpl

/-- Registry state at module load: every command bound to its default
fallback chain. -/
def defaultImplTable : ImplTable :=
  { reload := executeReload
    toggleInspector := executeToggleInspector
    togglePerformanceMonitor := executeTogglePerformanceMonitor
    toggleElementInspector := executeToggleElementInspector
    clearCache := executeClearCache
    toggleRemoteDebugging := executeToggleRemoteDebugging
    openDevMenu := executeOpenDevMenu
    takeScreenshot := executeTakeScreenshot
    shakeDevice := executeShakeDevice }

/-- Argument of setExpoCommandImplementations: each key independently
optional. -/
structure ImplOverrides where
  reload : Option ExpoCommandImpl := none
  toggleInspector : Option ExpoCommandImpl := none
  togglePerformanceMonitor : Option ExpoCommandImpl := none
  toggleElementInspector : Option ExpoCommandImpl := none
  clearCache : Option ExpoCommandImpl := none
  toggleRemoteDebugging : Option ExpoCommandImpl := none
  openDevMenu : Option ExpoCommandImpl := none
  takeScreenshot : Option ExpoCommandImpl := none
  shakeDevice : Option ExpoCommandImpl := none

/-- One guarded assignment of setExpoCommandImplementations
(executeExpoCommand.ts lines 508-534): a supplied implementation replaces
the current one, an absent key keeps it. -/
def applyOverride (override : Option ExpoCommandImpl)
    (current : ExpoCommandImpl) : ExpoCommandImpl :=
  match override with
  | some f => f
  | none => current

/-- setExpoCommandImplementations (executeExpoCommand.ts lines 497-535):
the nine guarded assignments are independent, so the registry after the call
holds, per key, the supplied implementation when present and the previous
one otherwise. -/
def setExpoCommandImplementations (implementations : ImplOverrides)
    (t : ImplTable) : ImplTable :=
  { reload := applyOverride implementations.reload t.reload
    toggleInspector := applyOverride implementations.toggleInspector t.toggleInspector
    togglePerformanceMonitor :=
      applyOverride implementations.togglePerformanceMonitor t.togglePerformanceMonitor
    toggleElementInspector :=
      applyOverride implementations.toggleElementInspector t.toggleElementInspector
    clearCache := applyOverride implementations.clearCache t.clearCache
    toggleRemoteDebugging :=
      applyOverride implementations.toggleRemoteDebugging t.toggleRemoteDebugging
    openDevMenu := applyOverride implementations.openDevMenu t.openDevMenu
    takeScreenshot := applyOverride implementations.takeScreenshot t.takeScreenshot
    shakeDevice := applyOverride implementations.shakeDevice t.shakeDevice }

/-- A command message, from expoDevToolsTypes (ExpoCommand): type is kept as
a raw string because executeExpoCommand must handle unknown command types
arriving over the wire. -/
structure ExpoCommand where
  id : String
  type : String
  status : String
  timestamp : Nat
  deviceId : String
  result : Option Bool := none
  error : Option String := none
deriving DecidableEq, Repr

/-- The switch of executeExpoCommand (lines 24-54): resolve the current
implementation for the command type and run it; an unknown type throws
inside the same try block. -/
def dispatchExpoCommand (t : ImplTable) (env : GlobalEnv) (ty : String) :
    Except String ExecEffect :=
  if ty = "reload" then t.reload env
  else if ty = "toggle-inspector" then t.toggleInspector env
  else if ty = "toggle-performance-monitor" then t.togglePerformanceMonitor env
  else if ty = "toggle-element-inspector" then t.toggleElementInspector env
  else if ty = "clear-cache" then t.clearCache env
  else if ty = "toggle-remote-debugging" then t.toggleRemoteDebugging env
  else if ty = "open-dev-menu" then t.openDevMenu env
  else if ty = "take-screenshot" then t.takeScreenshot env
  else if ty = "shake-device" then t.shakeDevice env
  else Except.error ("Unknown command type: " ++ ty)

/-- Whether a command type string is one of the nine known commands. -/
def isKnownCommandType (ty : String) : Bool :=
  ty == "reload" || ty == "toggle-inspector" ||
  ty == "toggle-performance-monitor" || ty == "toggle-element-inspector" ||
  ty == "clear-cache" || ty == "toggle-remote-debugging" ||
  ty == "open-dev-menu" || ty == "take-screenshot" || ty == "shake-device"

/-- One AsyncStorage key/value pair (types.ts). -/
structure AsyncStorageItem where
  key : String
  value : String
deriving DecidableEq, Repr

/-- Messages the device emits over the socket as a consequence of handling
one inbound message. Sync messages triggered by cache-change subscriptions
are separate and never produced directly by these handlers. -/
inductive OutMessage
  | expoCommandResult (command : ExpoCommand) (persistentDeviceId : String)
  | asyncStorageSync (items : List AsyncStorageItem) (timestamp : Nat)
      (persistentDeviceId : String)
  | asyncStorageActionReceived
  | requestAsyncStorageReceived
deriving DecidableEq, Repr

/-- executeExpoCommand (executeExpoCommand.ts lines 13-84): dispatch the
command; on normal completion emit one expo-command-result with status
success; any thrown error is caught and emitted as one expo-command-result
with status error carrying the stringified message. The function is total:
no exception escapes to the caller. -/
def executeExpoCommand (t : ImplTable) (env : GlobalEnv)
    (command : ExpoCommand) (deviceId : String) : List OutMessage :=
  match dispatchExpoCommand t env command.type with
  | Except.ok _ =>
    [OutMessage.expoCommandResult { command with status := "success" } deviceId]
  | Except.error e =>
    [OutMessage.expoCommandResult
      { command with status := "error", error := some e } deviceId]

/-- The query cache, keyed by query hash. -/
def QueryCache : Type := String → Option Query

/-- Point update of the query cache at one hash. -/
def updateQueryCache (c : QueryCache) (h : String) (q : Option Query) :
    QueryCache :=
  fun k => if k = h then q else c k

/-- Device-local state touched by the coordinator's inbound-message
handlers: the two caches, the process-wide online flag, the AsyncStorage
contents, and the three tracked interceptor disposers. Disposers are
identified by the id they were allocated from nextDisposerId; disposedLog
records the disposers actually invoked, in order. -/
structure DeviceState where
  queryCache : QueryCache
  mutationCache : List Nat
  isOnline : Bool
  storage : List AsyncStorageItem
  fetchDisposerId : Option Nat
  xhrDisposerId : Option Nat
  wsDisposerId : Option Nat
  nextDisposerId : Nat
  disposedLog : List Nat

/-- Replace the cache entry the handler acted on inside the device state. -/
def setQueryAt (s : DeviceState) (h : String) (q : Option Query) :
    DeviceState :=
  { s with queryCache := updateQueryCache s.queryCache h q }

/-- The fourteen query actions of the QueryActions union in
useSyncQueriesExternal.ts. -/
inductive QueryAction
  | refetch
  | invalidate
  | reset
  | remove
  | dataUpdate
  | triggerError
  | restoreError
  | triggerLoading
  | restoreLoading
  | onlineManagerOnline
  | onlineManagerOffline
  | success
  | clearMutationCache
  | clearQueryCache
deriving DecidableEq, Repr

/-- QueryActionMessage from useSyncQueriesExternal.ts. -/
structure QueryActionMessage where
  queryHash : String
  queryKey : List String
  data : Option Nat
  action : QueryAction
  targetDeviceId : String

/-- OnlineManagerMessage actions. -/
inductive OnlineManagerAction
  | online
  | offline
deriving DecidableEq, Repr

/-- OnlineManagerMessage from useSyncQueriesExternal.ts. -/
structure OnlineManagerMessage where
  action : OnlineManagerAction
  targetDeviceId : String

/-- AsyncStorageActionType from types.ts. -/
inductive AsyncStorageActionType
  | getAllKeys
  | getItem
  | setItem
  | removeItem
  | clearAll
deriving DecidableEq, Repr

/-- AsyncStorageActionMessage from types.ts. -/
structure AsyncStorageActionMessage where
  action : AsyncStorageActionType
  targetDeviceId : String
  key : Option String := none
  value : Option String := none

/-- AsyncStorageRequestMessage from types.ts. -/
structure AsyncStorageRequestMessage where
  targetDeviceId : String

/-- NetworkMonitoringActionMessage actions from types.ts. -/
inductive NetworkMonitoringAction
  | enable
  | disable
deriving DecidableEq, Repr

/-- NetworkMonitoringActionMessage from types.ts. -/
structure NetworkMonitoringActionMessage where
  action : NetworkMonitoringAction
  targetDeviceId : String

/-- NetworkRequestMessage (request-network-monitoring) from types.ts. -/
structure NetworkRequestMessage where
  targetDeviceId : String

/-- ExpoCommandActionMessage from expoDevToolsTypes. -/
structure ExpoCommandActionMessage where
  command : String
  targetDeviceId : String
  commandId : String

/-- ExpoDevToolsRequestMessage from expoDevToolsTypes. -/
structure ExpoDevToolsRequestMessage where
  targetDeviceId : String

/-- AsyncStorage collaborator setItem semantics: replace the value at an
existing key, append otherwise. -/
def storageSet (st : List AsyncStorageItem) (k v : String) :
    List AsyncStorageItem :=
  if st.any (fun it => it.key == k) then
    st.map (fun it => if it.key == k then { it with value := v } else it)
  else st ++ [{ key := k, value := v }]

/-- AsyncStorage collaborator removeItem semantics. -/
def storageRemove (st : List AsyncStorageItem) (k : String) :
    List AsyncStorageItem :=
  st.filter (fun it => it.key != k)

/-- sendAsyncStorageState (useSyncQueriesExternal.ts lines 245-273): with a
storage collaborator configured and a device id present, read every key and
emit one async-storage-sync message with the full state. -/
def sendAsyncStorageState (hasAsyncStorage : Bool) (currentDeviceId : String)
    (now : Nat) (storage : List AsyncStorageItem) : List OutMessage :=
  if !hasAsyncStorage || currentDeviceId = "" then []
  else [OutMessage.asyncStorageSync storage now currentDeviceId]

/-- The query-action handler (useSyncQueriesExternal.ts lines 364-536):
device-id guard, targeting check, wholesale cache clears that return before
the per-query lookup, then per-hash resolution of the active query followed
by the action switch. The handler emits nothing on the socket; effects are
observed through the cache-change subscription. -/
def handleQueryAction (currentDeviceId : String) (now : Nat)
    (message : QueryActionMessage) (s : DeviceState) :
    DeviceState × List OutMessage :=
  if currentDeviceId = "" then (s, [])
  else if !shouldProcessMessage message.targetDeviceId currentDeviceId then
    (s, [])
  else if message.action = QueryAction.clearMutationCache then
    ({ s with mutationCache := [] }, [])
  else if message.action = QueryAction.clearQueryCache then
    ({ s with queryCache := fun _ => none }, [])
  else
    match s.queryCache message.queryHash with
    | none => (s, [])
    | some activeQuery =>
      match message.action with
      | QueryAction.dataUpdate =>
        (setQueryAt s message.queryHash
          (some (setQueryData activeQuery message.data now)), [])
      | QueryAction.triggerError =>
        (setQueryAt s message.queryHash (some (triggerError activeQuery)), [])
      | QueryAction.restoreError =>
        (setQueryAt s message.queryHash (some (resetQuery activeQuery)), [])
      | QueryAction.triggerLoading =>
        (setQueryAt s message.queryHash (some (triggerLoading activeQuery)), [])
      | QueryAction.restoreLoading =>
        (setQueryAt s message.queryHash (some (restoreLoading activeQuery)), [])
      | QueryAction.reset =>
        (setQueryAt s message.queryHash (some (resetQuery activeQuery)), [])
      | QueryAction.remove =>
        (setQueryAt s message.queryHash none, [])
      | QueryAction.refetch =>
        (setQueryAt s message.queryHash (some (refetchQuery activeQuery)), [])
      | QueryAction.invalidate =>
        (setQueryAt s message.queryHash (some (invalidateQuery activeQuery)), [])
      | QueryAction.onlineManagerOnline => ({ s with isOnline := true }, [])
      | QueryAction.onlineManagerOffline => ({ s with isOnline := false }, [])
      | _ => (s, [])

/-- The online-manager handler (useSyncQueriesExternal.ts lines 323-359). -/
def handleOnlineManager (currentDeviceId : String)
    (message : OnlineManagerMessage) (s : DeviceState) :
    DeviceState × List OutMessage :=
  if currentDeviceId = "" then (s, [])
  else if !shouldProcessMessage message.targetDeviceId currentDeviceId then
    (s, [])
  else
    match message.action with
    | OnlineManagerAction.online => ({ s with isOnline := true }, [])
    | OnlineManagerAction.offline => ({ s with isOnline := false }, [])

/-- The async-storage-action handler (useSyncQueriesExternal.ts lines
564-641): guards, then either perform the storage operation and re-emit the
full state, or, with no storage collaborator configured, re-emit the message
for the hosting application. -/
def handleAsyncStorageAction (currentDeviceId : String)
    (hasAsyncStorage : Bool) (now : Nat)
    (message : AsyncStorageActionMessage) (s : DeviceState) :
    DeviceState × List OutMessage :=
  if currentDeviceId = "" then (s, [])
  else if !shouldProcessMessage message.targetDeviceId currentDeviceId then
    (s, [])
  else if hasAsyncStorage then
    match message.action with
    | AsyncStorageActionType.getAllKeys =>
      (s, sendAsyncStorageState hasAsyncStorage currentDeviceId now s.storage)
    | AsyncStorageActionType.getItem =>
      match message.key with
      | some _ =>
        (s, sendAsyncStorageState hasAsyncStorage currentDeviceId now s.storage)
      | none => (s, [])
    | AsyncStorageActionType.setItem =>
      match message.key, message.value with
      | some k, some v =>
        let storage := storageSet s.storage k v
        ({ s with storage := storage },
          sendAsyncStorageState hasAsyncStorage currentDeviceId now storage)
      | _, _ => (s, [])
    | AsyncStorageActionType.removeItem =>
      match message.key with
      | some k =>
        let storage := storageRemove s.storage k
        ({ s with storage := storage },
          sendAsyncStorageState hasAsyncStorage currentDeviceId now storage)
      | none => (s, [])
    | AsyncStorageActionType.clearAll =>
      ({ s with storage := [] },
        sendAsyncStorageState hasAsyncStorage currentDeviceId now [])
  else (s, [OutMessage.asyncStorageActionReceived])

/-- The request-async-storage handler (useSyncQueriesExternal.ts lines
646-678). -/
def handleRequestAsyncStorage (currentDeviceId : String)
    (hasAsyncStorage : Bool) (now : Nat)
    (message : AsyncStorageRequestMessage) (s : DeviceState) :
    DeviceState × List OutMessage :=
  if currentDeviceId = "" then (s, [])
  else if !shouldProcessMessage message.targetDeviceId currentDeviceId then
    (s, [])
  else if hasAsyncStorage then
    (s, sendAsyncStorageState hasAsyncStorage currentDeviceId now s.storage)
  else (s, [OutMessage.requestAsyncStorageReceived])

/-- The network-monitoring-action handler (useSyncQueriesExternal.ts lines
706-774): enable installs an interceptor per kind only when none is tracked
for that kind; disable invokes and clears each tracked disposer and is a
no-op for absent kinds. The setup interceptor functions live in
sendNetworkRequest.ts, absent from the sources; modelled from the spec:
install(kind) returns a fresh disposer. -/
def handleNetworkMonitoringAction (currentDeviceId : String)
    (message : NetworkMonitoringActionMessage) (s : DeviceState) :
    DeviceState × List OutMessage :=
  if currentDeviceId = "" then (s, [])
  else if !shouldProcessMessage message.targetDeviceId currentDeviceId then
    (s, [])
  else
    match message.action with
    | NetworkMonitoringAction.enable =>
      let s :=
        if s.fetchDisposerId = none then
          { s with fetchDisposerId := some s.nextDisposerId
                   nextDisposerId := s.nextDisposerId + 1 }
        else s
      let s :=
        if s.xhrDisposerId = none then
          { s with xhrDisposerId := some s.nextDisposerId
                   nextDisposerId := s.nextDisposerId + 1 }
        else s
      let s :=
        if s.wsDisposerId = none then
          { s with wsDisposerId := some s.nextDisposerId
                   nextDisposerId := s.nextDisposerId + 1 }
        else s
      (s, [])
    | NetworkMonitoringAction.disable =>
      let s :=
        match s.fetchDisposerId with
        | some d =>
          { s with fetchDisposerId := none, disposedLog := s.disposedLog ++ [d] }
        | none => s
      let s :=
        match s.xhrDisposerId with
        | some d =>
          { s with xhrDisposerId := none, disposedLog := s.disposedLog ++ [d] }
        | none => s
      let s :=
        match s.wsDisposerId with
        | some d =>
          { s with wsDisposerId := none, disposedLog := s.disposedLog ++ [d] }
        | none => s
      (s, [])

/-- The request-network-monitoring handler (useSyncQueriesExternal.ts lines
779-806): guards only; the body is left to the hosting application. -/
def handleRequestNetworkMonitoring (currentDeviceId : String)
    (message : NetworkRequestMessage) (s : DeviceState) :
    DeviceState × List OutMessage :=
  if currentDeviceId = "" then (s, [])
  else if !shouldProcessMessage message.targetDeviceId currentDeviceId then
    (s, [])
  else (s, [])

/-- The expo-command-action handler (useSyncQueriesExternal.ts lines
811-847): guards, then build a pending command object and run
executeExpoCommand with it. -/
def handleExpoCommandAction (currentDeviceId : String) (t : ImplTable)
    (env : GlobalEnv) (now : Nat) (message : ExpoCommandActionMessage)
    (s : DeviceState) : DeviceState × List OutMessage :=
  if currentDeviceId = "" then (s, [])
  else if !shouldProcessMessage message.targetDeviceId currentDeviceId then
    (s, [])
  else
    let expoCommand : ExpoCommand :=
      { id := message.commandId
        type := message.command
        status := "pending"
        timestamp := now
        deviceId := message.targetDeviceId }
    (s, executeExpoCommand t env expoCommand currentDeviceId)

/-- The request-expo-devtools-status handler (useSyncQueriesExternal.ts
lines 852-892): guards, then emit a synthetic successful status-check
result. -/
def handleRequestExpoDevToolsStatus (currentDeviceId : String) (now : Nat)
    (message : ExpoDevToolsRequestMessage) (s : DeviceState) :
    DeviceState × List OutMessage :=
  if currentDeviceId = "" then (s, [])
  else if !shouldProcessMessage message.targetDeviceId currentDeviceId then
    (s, [])
  else
    (s, [OutMessage.expoCommandResult
      { id := "status-check"
        type := "reload"
        status := "success"
        timestamp := now
        deviceId := message.targetDeviceId
        result := some true } currentDeviceId])

/-- A releasable handle: a socket subscription's off method, an interceptor
disposer, or the cache-change unsubscribe. throws says whether invoking it
raises; disposed records that it was invoked to completion. -/
structure Disposable where
  throws : Bool
  disposed : Bool
deriving DecidableEq, Repr

/-- Invoking one handle: none models a raised exception, otherwise the
handle is marked disposed. -/
def offDisposable (d : Disposable) : Option Disposable :=
  if d.throws then none else some { d with disposed := true }

/-- Resources held when the effect cleanup of useSyncQueriesExternal runs
(lines 897-938): the nine socket subscriptions, the three interceptor
disposer refs, and the query-cache unsubscribe function. invoked records
which interceptor disposers were actually called, in order. -/
structure TeardownState where
  queryActionSub : Disposable
  initialStateSub : Disposable
  onlineManagerSub : Disposable
  asyncStorageActionSub : Disposable
  asyncStorageRequestSub : Disposable
  networkMonitoringSub : Disposable
  networkRequestSub : Disposable
  expoCommandActionSub : Disposable
  expoDevToolsRequestSub : Disposable
  fetchDisposerRef : Option Disposable
  xhrDisposerRef : Option Disposable
  wsDisposerRef : Option Disposable
  cacheUnsubscribe : Disposable
  invoked : List String
deriving DecidableEq, Repr

/-- The cleanup function returned by the effect (useSyncQueriesExternal.ts
lines 897-938), translated statement by statement: each off call and each
disposer call runs in sequence with no surrounding try/catch, so the first
call that raises aborts the rest; the Bool result records whether an
exception escaped. -/
def cleanupEffect (s : TeardownState) : TeardownState × Bool :=
  match offDisposable s.queryActionSub with
  | none => (s, true)
  | some d =>
  let s := { s with queryActionSub := d }
  match offDisposable s.initialStateSub with
  | none => (s, true)
  | some d =>
  let s := { s with initialStateSub := d }
  match offDisposable s.onlineManagerSub with
  | none => (s, true)
  | some d =>
  let s := { s with onlineManagerSub := d }
  match offDisposable s.asyncStorageActionSub with
  | none => (s, true)
  | some d =>
  let s := { s with asyncStorageActionSub := d }
  match offDisposable s.asyncStorageRequestSub with
  | none => (s, true)
  | some d =>
  let s := { s with asyncStorageRequestSub := d }
  match offDisposable s.networkMonitoringSub with
  | none => (s, true)
  | some d =>
  let s := { s with networkMonitoringSub := d }
  match offDisposable s.networkRequestSub with
  | none => (s, true)
  | some d =>
  let s := { s with networkRequestSub := d }
  match offDisposable s.expoCommandActionSub with
  | none => (s, true)
  | some d =>
  let s := { s with expoCommandActionSub := d }
  match offDisposable s.expoDevToolsRequestSub with
  | none => (s, true)
  | some d =>
  let s := { s with expoDevToolsRequestSub := d }
  let step :=
    match s.fetchDisposerRef with
    | some d =>
      match offDisposable d with
      | none => none
      | some _ =>
        some { s with fetchDisposerRef := none
                      invoked := s.invoked ++ ["fetch"] }
    | none => some s
  match step with
  | none => (s, true)
  | some s =>
  let step :=
    match s.xhrDisposerRef with
    | some d =>
      match offDisposable d with
      | none => none
      | some _ =>
        some { s with xhrDisposerRef := none
                      invoked := s.invoked ++ ["xhr"] }
    | none => some s
  match step with
  | none => (s, true)
  | some s =>
  let step :=
    match s.wsDisposerRef with
    | some d =>
      match offDisposable d with
      | none => none
      | some _ =>
        some { s with wsDisposerRef := none
                      invoked := s.invoked ++ ["websocket"] }
    | none => some s
  match step with
  | none => (s, true)
  | some s =>
  match offDisposable s.cacheUnsubscribe with
  | none => (s, true)
  | some d => ({ s with cacheUnsubscribe := d }, false)

/-- True when no handle held at teardown time raises on invocation. -/
def TeardownState.noThrows (s : TeardownState) : Bool :=
  !s.queryActionSub.throws && !s.initialStateSub.throws &&
  !s.onlineManagerSub.throws && !s.asyncStorageActionSub.throws &&
  !s.asyncStorageRequestSub.throws && !s.networkMonitoringSub.throws &&
  !s.networkRequestSub.throws && !s.expoCommandActionSub.throws &&
  !s.expoDevToolsRequestSub.throws &&
  (match s.fetchDisposerRef with | some d => !d.throws | none => true) &&
  (match s.xhrDisposerRef with | some d => !d.throws | none => true) &&
  (match s.wsDisposerRef with | some d => !d.throws | none => true) &&
  !s.cacheUnsubscribe.throws

/-- What the hook returns to its caller. -/
structure HookResult where
  isConnected : Bool
  socket : Option Nat
  users : List String
deriving DecidableEq, Repr

/-- Observable behaviour of an exported hook: a transformation of the
device-side resources plus a returned value. -/
def HookFn : Type := DeviceState → DeviceState × HookResult

/-- The production replacement of the hook (src/index.ts lines 10-16): no
connection, no handlers, isConnected false and a null socket. -/
def productionNoopHook : HookFn := fun s =>
  (s, { isConnected := false, socket := none, users := [] })

/-- The export switch of src/index.ts for useSyncQueriesExternal: outside
production the real hook is exported, in production the no-op replaces
it. -/
def exportedUseSyncQueriesExternal (nodeEnv : String) (realHook : HookFn) :
    HookFn :=
  if nodeEnv ≠ "production" then realHook else productionNoopHook

/-- The export switch of src/index.ts for setExpoCommandImplementations: in
production it becomes a function that ignores its argument and changes
nothing. -/
def exportedSetExpoCommandImplementations (nodeEnv : String)
    (realSetter : ImplOverrides → ImplTable → ImplTable) :
    ImplOverrides → ImplTable → ImplTable :=
  if nodeEnv ≠ "production" then realSetter else fun _ t => t

/-- A runtime with no optional native API available at all. -/
def emptyGlobalEnv : GlobalEnv :=
  { expoReload := false
    expoOpenDevMenu := false
    hasRequire := false
    devSettingsReload := false
    devSettingsToggleElementInspector := false
    devSettingsTogglePerformanceMonitor := false
    devSettingsSetIsDebuggingRemotely := false
    devSettingsShow := false
    devMenuReload := false
    devMenuToggleElementInspector := false
    devMenuTogglePerformanceMonitor := false
    devMenuToggleRemoteDebugging := false
    devMenuShow := false
    asyncStorageClear := false
    imageLoaderClearCache := false
    rnScreenshotTakeScreenshot := false }

/-- No native capability probed by any fallback chain is available; the
availability of global.require itself is left unconstrained. -/
def GlobalEnv.noNativeApis (env : GlobalEnv) : Prop :=
  env.expoReload = false ∧ env.expoOpenDevMenu = false ∧
  env.devSettingsReload = false ∧
  env.devSettingsToggleElementInspector = false ∧
  env.devSettingsTogglePerformanceMonitor = false ∧
  env.devSettingsSetIsDebuggingRemotely = false ∧
  env.devSettingsShow = false ∧ env.devMenuReload = false ∧
  env.devMenuToggleElementInspector = false ∧
  env.devMenuTogglePerformanceMonitor = false ∧
  env.devMenuToggleRemoteDebugging = false ∧ env.devMenuShow = false ∧
  env.asyncStorageClear = false ∧ env.imageLoaderClearCache = false ∧
  env.rnScreenshotTakeScreenshot = false

theorem applyOverride_eq_getD (o : Option ExpoCommandImpl)
    (c : ExpoCommandImpl) : applyOverride o c = o.getD c := by
  cases o <;> rfl

/-- C4: shouldProcessMessage returns true exactly when the target device id
equals the current device id or the broadcast sentinel "All", and false for
every other target. -/
theorem shouldProcessMessage_iff (targetDeviceId currentDeviceId : String) :
    shouldProcessMessage targetDeviceId currentDeviceId = true ↔
      targetDeviceId = currentDeviceId ∨ targetDeviceId = "All" := by
  simp [shouldProcessMessage]

/-- C10: with NODE_ENV equal to production, the exported hook is a no-op
that performs no connection and no installation, leaving the device state
untouched and returning isConnected false with a null socket, and the
exported setExpoCommandImplementations overrides nothing, whatever the real
implementations would have done. -/
theorem production_exports_are_noops (realHook : HookFn)
    (realSetter : ImplOverrides → ImplTable → ImplTable) (s : DeviceState)
    (o : ImplOverrides) (t : ImplTable) :
    exportedUseSyncQueriesExternal "production" realHook s =
      (s, { isConnected := false, socket := none, users := [] }) ∧
    exportedSetExpoCommandImplementations "production" realSetter o t = t ∧
    exportedSetExpoCommandImplementations "production"
      setExpoCommandImplementations o t = t := by
  refine ⟨?_, ?_, ?_⟩ <;>
    simp [exportedUseSyncQueriesExternal,
      exportedSetExpoCommandImplementations, productionNoopHook]

/-- C6: setExpoCommandImplementations replaces exactly the supplied entries
and keeps every previous implementation for absent keys; in particular,
after overriding only reload, dispatch of toggle-inspector still uses the
previous table's implementation while dispatch of reload uses the supplied
function. -/
theorem setExpoCommandImplementations_per_entry (o : ImplOverrides)
    (t : ImplTable) :
    (setExpoCommandImplementations o t).reload = o.reload.getD t.reload ∧
    (setExpoCommandImplementations o t).toggleInspector =
      o.toggleInspector.getD t.toggleInspector ∧
    (setExpoCommandImplementations o t).togglePerformanceMonitor =
      o.togglePerformanceMonitor.getD t.togglePerformanceMonitor ∧
    (setExpoCommandImplementations o t).toggleElementInspector =
      o.toggleElementInspector.getD t.toggleElementInspector ∧
    (setExpoCommandImplementations o t).clearCache =
      o.clearCache.getD t.clearCache ∧
    (setExpoCommandImplementations o t).toggleRemoteDebugging =
      o.toggleRemoteDebugging.getD t.toggleRemoteDebugging ∧
    (setExpoCommandImplementations o t).openDevMenu =
      o.openDevMenu.getD t.openDevMenu ∧
    (setExpoCommandImplementations o t).takeScreenshot =
      o.takeScreenshot.getD t.takeScreenshot ∧
    (setExpoCommandImplementations o t).shakeDevice =
      o.shakeDevice.getD t.shakeDevice ∧
    (∀ f : ExpoCommandImpl, ∀ env : GlobalEnv,
      dispatchExpoCommand
          (setExpoCommandImplementations { reload := some f } t) env
          "toggle-inspector" =
        t.toggleInspector env ∧
      dispatchExpoCommand
          (setExpoCommandImplementations { reload := some f } t) env
          "reload" =
        f env) := by
  refine ⟨?_, ?_, ?_, ?_, ?_, ?_, ?_, ?_, ?_, ?_⟩
  case _ => simp [setExpoCommandImplementations, applyOverride_eq_getD]
  case _ => simp [setExpoCommandImplementations, applyOverride_eq_getD]
  case _ => simp [setExpoCommandImplementations, applyOverride_eq_getD]
  case _ => simp [setExpoCommandImplementations, applyOverride_eq_getD]
  case _ => simp [setExpoCommandImplementations, applyOverride_eq_getD]
  case _ => simp [setExpoCommandImplementations, applyOverride_eq_getD]
  case _ => simp [setExpoCommandImplementations, applyOverride_eq_getD]
  case _ => simp [setExpoCommandImplementations, applyOverride_eq_getD]
  case _ => simp [setExpoCommandImplementations, applyOverride_eq_getD]
  case _ =>
    intro f env
    constructor <;>
      simp [dispatchExpoCommand, setExpoCommandImplementations, applyOverride]

/-- C1: one invocation of executeExpoCommand emits exactly one
expo-command-result carrying the original command id, whose status is
success or error; a thrown implementation error is caught and stringified
into the error field with status error, and an unknown command type yields
the error result rather than an uncaught exception (the function is total,
so nothing propagates to the caller). -/
theorem executeExpoCommand_contract (t : ImplTable) (env : GlobalEnv)
    (command : ExpoCommand) (deviceId : String) :
    (∃ c : ExpoCommand,
      executeExpoCommand t env command deviceId =
          [OutMessage.expoCommandResult c deviceId] ∧
        c.id = command.id ∧ (c.status = "success" ∨ c.status = "error")) ∧
    (∀ e : String, dispatchExpoCommand t env command.type = Except.error e →
      executeExpoCommand t env command deviceId =
        [OutMessage.expoCommandResult
          { command with status := "error", error := some e } deviceId]) ∧
    (isKnownCommandType command.type = false →
      executeExpoCommand t env command deviceId =
        [OutMessage.expoCommandResult
          { command with
            status := "error"
            error := some ("Unknown command type: " ++ command.type) }
          deviceId]) := by
  refine ⟨?_, ?_, ?_⟩
  case _ =>
    cases h : dispatchExpoCommand t env command.type with
    | ok v =>
      exact ⟨{ command with status := "success" },
        by simp [executeExpoCommand, h], rfl, Or.inl rfl⟩
    | error e =>
      exact ⟨{ command with status := "error", error := some e },
        by simp [executeExpoCommand, h], rfl, Or.inr rfl⟩
  case _ =>
    intro e he
    simp [executeExpoCommand, he]
  case _ =>
    intro hk
    simp only [isKnownCommandType, Bool.or_eq_false_iff, beq_eq_false_iff_ne,
      ne_eq] at hk
    obtain ⟨⟨⟨⟨⟨⟨⟨⟨h1, h2⟩, h3⟩, h4⟩, h5⟩, h6⟩, h7⟩, h8⟩, h9⟩ := hk
    simp [executeExpoCommand, dispatchExpoCommand, h1, h2, h3, h4, h5, h6,
      h7, h8, h9]

/-- Witness for C1 at a concrete unknown command. -/
theorem executeExpoCommand_contract_witness :
    executeExpoCommand defaultImplTable emptyGlobalEnv
        { id := "cmd-1", type := "bogus", status := "pending",
          timestamp := 0, deviceId := "dev-A" } "dev-A" =
      [OutMessage.expoCommandResult
        { id := "cmd-1", type := "bogus", status := "error", timestamp := 0,
          deviceId := "dev-A",
          error := some "Unknown command type: bogus" } "dev-A"] :=
  (executeExpoCommand_contract defaultImplTable emptyGlobalEnv
    { id := "cmd-1", type := "bogus", status := "pending", timestamp := 0,
      deviceId := "dev-A" } "dev-A").2.2 (by decide)

/-- C8: with no native API of any fallback chain available, each of the nine
default implementations completes successfully with the informational notice
naming the override setter to supply, and executing any known command with
the default registry therefore yields a result message with status
success. -/
theorem default_commands_notice_on_missing_apis (env : GlobalEnv)
    (h : env.noNativeApis) :
    executeReload env = Except.ok (ExecEffect.notice
      "Reload command received but no implementation found. Override with setReloadImplementation() for custom behavior.") ∧
    executeToggleInspector env = Except.ok (ExecEffect.notice
      "Toggle inspector command received but no implementation found. Override with setToggleInspectorImplementation() for custom behavior.") ∧
    executeTogglePerformanceMonitor env = Except.ok (ExecEffect.notice
      "Toggle performance monitor command received but no implementation found. Override with setTogglePerformanceMonitorImplementation() for custom behavior.") ∧
    executeToggleElementInspector env = Except.ok (ExecEffect.notice
      "Toggle element inspector command received but no implementation found. Override with setToggleElementInspectorImplementation() for custom behavior.") ∧
    executeClearCache env = Except.ok (ExecEffect.notice
      "Clear cache command received but no implementation found. Override with setClearCacheImplementation() for custom behavior.") ∧
    executeToggleRemoteDebugging env = Except.ok (ExecEffect.notice
      "Toggle remote debugging command received but no implementation found. Override with setToggleRemoteDebuggingImplementation() for custom behavior.") ∧
    executeOpenDevMenu env = Except.ok (ExecEffect.notice
      "Open dev menu command received but no implementation found. Override with setOpenDevMenuImplementation() for custom behavior.") ∧
    executeTakeScreenshot env = Except.ok (ExecEffect.notice
      "Take screenshot command received but no implementation found. Override with setTakeScreenshotImplementation() for custom behavior.") ∧
    executeShakeDevice env = Except.ok (ExecEffect.notice
      "Shake device command received but no implementation found. Override with setShakeDeviceImplementation() for custom behavior.") ∧
    (∀ cmd : ExpoCommand, ∀ d : String, isKnownCommandType cmd.type = true →
      executeExpoCommand defaultImplTable env cmd d =
        [OutMessage.expoCommandResult { cmd with status := "success" } d]) := by
  obtain ⟨h1, h2, h3, h4, h5, h6, h7, h8, h9, h10, h11, h12, h13, h14, h15⟩ := h
  refine ⟨?_, ?_, ?_, ?_, ?_, ?_, ?_, ?_, ?_, ?_⟩
  case _ => simp [executeReload, h1, h3, h8]
  case _ => simp [executeToggleInspector, h4, h9]
  case _ => simp [executeTogglePerformanceMonitor, h5, h10]
  case _ => simp [executeToggleElementInspector, h4, h9]
  case _ => simp [executeClearCache, h13, h14]
  case _ => simp [executeToggleRemoteDebugging, h6, h11]
  case _ => simp [executeOpenDevMenu, h2, h12]
  case _ => simp [executeTakeScreenshot, h15]
  case _ => simp [executeShakeDevice, h3, h12]
  case _ =>
    intro cmd d hk
    simp only [isKnownCommandType, Bool.or_eq_true, beq_iff_eq] at hk
    rcases hk with ((((((((hty | hty) | hty) | hty) | hty) | hty) | hty) |
        hty) | hty) <;>
      simp [executeExpoCommand, dispatchExpoCommand, defaultImplTable, hty,
        executeReload, executeToggleInspector, executeTogglePerformanceMonitor,
        executeToggleElementInspector, executeClearCache,
        executeToggleRemoteDebugging, executeOpenDevMenu,
        executeTakeScreenshot, executeShakeDevice]

/-- Witness for C8 at the empty runtime. -/
theorem default_commands_notice_on_missing_apis_witness :
    executeTakeScreenshot emptyGlobalEnv = Except.ok (ExecEffect.notice
        "Take screenshot command received but no implementation found. Override with setTakeScreenshotImplementation() for custom behavior.") ∧
    executeExpoCommand defaultImplTable emptyGlobalEnv
        { id := "cmd-2", type := "take-screenshot", status := "pending",
          timestamp := 0, deviceId := "dev-A" } "dev-A" =
      [OutMessage.expoCommandResult
        { id := "cmd-2", type := "take-screenshot", status := "success",
          timestamp := 0, deviceId := "dev-A" } "dev-A"] :=
  ⟨(default_commands_notice_on_missing_apis emptyGlobalEnv
      ⟨rfl, rfl, rfl, rfl, rfl, rfl, rfl, rfl, rfl, rfl, rfl, rfl, rfl, rfl,
        rfl⟩).2.2.2.2.2.2.2.1,
    (default_commands_notice_on_missing_apis emptyGlobalEnv
      ⟨rfl, rfl, rfl, rfl, rfl, rfl, rfl, rfl, rfl, rfl, rfl, rfl, rfl, rfl,
        rfl⟩).2.2.2.2.2.2.2.2.2
      { id := "cmd-2", type := "take-screenshot", status := "pending",
        timestamp := 0, deviceId := "dev-A" } "dev-A" (by decide)⟩

/-- An example query in a settled successful state. -/
def exampleQuery : Query :=
  { state :=
      { status := QueryStatus.success
        data := some 7
        error := false
        fetchStatus := FetchStatus.idle
        fetchMeta := none
        dataUpdatedAt := 5
        isInvalidated := false }
    options := { queryFn := QueryFn.resolves 7 }
    revertState := none
    inFlight := none }

/-- An example device state holding one query under hash h1. -/
def exampleDeviceState : DeviceState :=
  { queryCache := fun k => if k = "h1" then some exampleQuery else none
    mutationCache := [3]
    isOnline := true
    storage := [{ key := "k", value := "v" }]
    fetchDisposerId := none
    xhrDisposerId := none
    wsDisposerId := none
    nextDisposerId := 0
    disposedLog := [] }

/-- C3: an inbound message whose target fails the device check is dropped by
every handler before any effect: the device state is returned unchanged and
nothing is emitted, whichever handler received it. -/
theorem untargeted_messages_dropped (currentDeviceId : String)
    (s : DeviceState) (now : Nat) (t : ImplTable) (env : GlobalEnv)
    (hasAsyncStorage : Bool) :
    (∀ m : QueryActionMessage,
      shouldProcessMessage m.targetDeviceId currentDeviceId = false →
      handleQueryAction currentDeviceId now m s = (s, [])) ∧
    (∀ m : OnlineManagerMessage,
      shouldProcessMessage m.targetDeviceId currentDeviceId = false →
      handleOnlineManager currentDeviceId m s = (s, [])) ∧
    (∀ m : AsyncStorageActionMessage,
      shouldProcessMessage m.targetDeviceId currentDeviceId = false →
      handleAsyncStorageAction currentDeviceId hasAsyncStorage now m s =
        (s, [])) ∧
    (∀ m : AsyncStorageRequestMessage,
      shouldProcessMessage m.targetDeviceId currentDeviceId = false →
      handleRequestAsyncStorage currentDeviceId hasAsyncStorage now m s =
        (s, [])) ∧
    (∀ m : NetworkMonitoringActionMessage,
      shouldProcessMessage m.targetDeviceId currentDeviceId = false →
      handleNetworkMonitoringAction currentDeviceId m s = (s, [])) ∧
    (∀ m : NetworkRequestMessage,
      shouldProcessMessage m.targetDeviceId currentDeviceId = false →
      handleRequestNetworkMonitoring currentDeviceId m s = (s, [])) ∧
    (∀ m : ExpoCommandActionMessage,
      shouldProcessMessage m.targetDeviceId currentDeviceId = false →
      handleExpoCommandAction currentDeviceId t env now m s = (s, [])) ∧
    (∀ m : ExpoDevToolsRequestMessage,
      shouldProcessMessage m.targetDeviceId currentDeviceId = false →
      handleRequestExpoDevToolsStatus currentDeviceId now m s = (s, [])) := by
  refine ⟨?_, ?_, ?_, ?_, ?_, ?_, ?_, ?_⟩
  case _ =>
    intro m hm
    by_cases hd : currentDeviceId = "" <;> simp [handleQueryAction, hd, hm]
  case _ =>
    intro m hm
    by_cases hd : currentDeviceId = "" <;> simp [handleOnlineManager, hd, hm]
  case _ =>
    intro m hm
    by_cases hd : currentDeviceId = "" <;>
      simp [handleAsyncStorageAction, hd, hm]
  case _ =>
    intro m hm
    by_cases hd : currentDeviceId = "" <;>
      simp [handleRequestAsyncStorage, hd, hm]
  case _ =>
    intro m hm
    by_cases hd : currentDeviceId = "" <;>
      simp [handleNetworkMonitoringAction, hd, hm]
  case _ =>
    intro m hm
    by_cases hd : currentDeviceId = "" <;>
      simp [handleRequestNetworkMonitoring, hd, hm]
  case _ =>
    intro m hm
    by_cases hd : currentDeviceId = "" <;>
      simp [handleExpoCommandAction, hd, hm]
  case _ =>
    intro m hm
    by_cases hd : currentDeviceId = "" <;>
      simp [handleRequestExpoDevToolsStatus, hd, hm]

/-- Witness for C3: the ACTION-REMOVE message addressed to dev-B leaves
device dev-A's state untouched and emits nothing. -/
theorem untargeted_messages_dropped_witness :
    handleQueryAction "dev-A" 0
        { queryHash := "h1", queryKey := [], data := none,
          action := QueryAction.remove, targetDeviceId := "dev-B" }
        exampleDeviceState =
      (exampleDeviceState, []) :=
  (untargeted_messages_dropped "dev-A" exampleDeviceState 0 defaultImplTable
      emptyGlobalEnv true).1
    { queryHash := "h1", queryKey := [], data := none,
      action := QueryAction.remove, targetDeviceId := "dev-B" } (by decide)

/-- C7: a targeted clear-mutation-cache or clear-query-cache action clears
the respective cache wholesale and returns immediately, independently of any
per-query lookup; every other action first resolves the query by hash, and
when the hash is absent the message is dropped with the state completely
unchanged and no reply emitted. -/
theorem query_action_clear_and_missing_hash (currentDeviceId : String)
    (now : Nat) (m : QueryActionMessage) (s : DeviceState)
    (hdev : currentDeviceId ≠ "")
    (htgt : shouldProcessMessage m.targetDeviceId currentDeviceId = true) :
    (m.action = QueryAction.clearMutationCache →
      handleQueryAction currentDeviceId now m s =
        ({ s with mutationCache := [] }, [])) ∧
    (m.action = QueryAction.clearQueryCache →
      handleQueryAction currentDeviceId now m s =
        ({ s with queryCache := fun _ => none }, [])) ∧
    (m.action ≠ QueryAction.clearMutationCache →
      m.action ≠ QueryAction.clearQueryCache →
      s.queryCache m.queryHash = none →
      handleQueryAction currentDeviceId now m s = (s, [])) := by
  refine ⟨?_, ?_, ?_⟩
  case _ =>
    intro ha
    simp [handleQueryAction, hdev, htgt, ha]
  case _ =>
    intro ha
    simp [handleQueryAction, hdev, htgt, ha]
  case _ =>
    intro ha1 ha2 hq
    simp [handleQueryAction, hdev, htgt, ha1, ha2, hq]

/-- Witness for C7: a targeted clear-mutation-cache message empties the
mutation cache of the example state without touching anything else. -/
theorem query_action_clear_and_missing_hash_witness :
    handleQueryAction "dev-A" 0
        { queryHash := "nope", queryKey := [], data := none,
          action := QueryAction.clearMutationCache,
          targetDeviceId := "All" }
        exampleDeviceState =
      ({ exampleDeviceState with mutationCache := [] }, []) :=
  (query_action_clear_and_missing_hash "dev-A" 0
      { queryHash := "nope", queryKey := [], data := none,
        action := QueryAction.clearMutationCache, targetDeviceId := "All" }
      exampleDeviceState (by decide) (by decide)).1 rfl

/-- C5: handling a targeted enable-network-monitoring message leaves one
tracked disposer per kind, and handling it again installs nothing new and
emits nothing; handling disable invokes and clears exactly the disposers
that are tracked, so disabling a kind that is absent is a no-op for that
kind and raises no exception, an all-absent disable leaving the state
exactly unchanged. -/
theorem network_monitoring_enable_disable_idempotent
    (currentDeviceId : String) (s : DeviceState)
    (hdev : currentDeviceId ≠ "") :
    ((handleNetworkMonitoringAction currentDeviceId
        { action := NetworkMonitoringAction.enable,
          targetDeviceId := currentDeviceId } s).1.fetchDisposerId.isSome =
        true ∧
      (handleNetworkMonitoringAction currentDeviceId
        { action := NetworkMonitoringAction.enable,
          targetDeviceId := currentDeviceId } s).1.xhrDisposerId.isSome =
        true ∧
      (handleNetworkMonitoringAction currentDeviceId
        { action := NetworkMonitoringAction.enable,
          targetDeviceId := currentDeviceId } s).1.wsDisposerId.isSome =
        true) ∧
    handleNetworkMonitoringAction currentDeviceId
        { action := NetworkMonitoringAction.enable,
          targetDeviceId := currentDeviceId }
        (handleNetworkMonitoringAction currentDeviceId
          { action := NetworkMonitoringAction.enable,
            targetDeviceId := currentDeviceId } s).1 =
      ((handleNetworkMonitoringAction currentDeviceId
        { action := NetworkMonitoringAction.enable,
          targetDeviceId := currentDeviceId } s).1, []) ∧
    handleNetworkMonitoringAction currentDeviceId
        { action := NetworkMonitoringAction.disable,
          targetDeviceId := currentDeviceId } s =
      ({ s with
          fetchDisposerId := none
          xhrDisposerId := none
          wsDisposerId := none
          disposedLog := s.disposedLog ++ (s.fetchDisposerId.toList ++
            s.xhrDisposerId.toList ++ s.wsDisposerId.toList) }, []) := by
  have htgt : shouldProcessMessage currentDeviceId currentDeviceId = true := by
    simp [shouldProcessMessage]
  obtain ⟨qc, mc, onl, st, f, x, w, nid, dl⟩ := s
  rcases f with _ | f <;> rcases x with _ | x <;> rcases w with _ | w <;>
    refine ⟨⟨?_, ?_, ?_⟩, ?_, ?_⟩ <;>
      simp [handleNetworkMonitoringAction, hdev, htgt]

/-- Witness for C5 on the example state with no interceptor installed. -/
theorem network_monitoring_enable_disable_idempotent_witness :
    handleNetworkMonitoringAction "dev-A"
        { action := NetworkMonitoringAction.disable,
          targetDeviceId := "dev-A" } exampleDeviceState =
      ({ exampleDeviceState with
          fetchDisposerId := none
          xhrDisposerId := none
          wsDisposerId := none
          disposedLog := exampleDeviceState.disposedLog ++
            (exampleDeviceState.fetchDisposerId.toList ++
              exampleDeviceState.xhrDisposerId.toList ++
              exampleDeviceState.wsDisposerId.toList) }, []) :=
  (network_monitoring_enable_disable_idempotent "dev-A" exampleDeviceState
    (by decide)).2.2

/-- C2 amended: on a query in a settled success state whose query function
deterministically resolves to its current data, a targeted
ACTION-TRIGGER-LOADING followed by ACTION-RESTORE-LOADING on the same hash
leaves a query that, once its re-issued original fetch settles, has exactly
the pre-trigger status and data, with no fetch in flight and in particular
no forced never-resolving fetch left pending; and when no stashed options
exist in fetchMeta at restore time, restore cancels and rewrites the state
without issuing any new fetch. The restriction to settled success states is
forced: restore overwrites the state with the forced pending state and then
re-issues the stashed fetch, so a query in any other state ends at the
fetch's success state, not its pre-trigger one (see the counterexample
below). -/
theorem trigger_restore_loading_roundtrip (currentDeviceId h : String)
    (s : DeviceState) (q : Query) (v : Nat) (now : Nat)
    (hdev : currentDeviceId ≠ "")
    (hq : s.queryCache h = some q)
    (hstatus : q.state.status = QueryStatus.success)
    (hdata : q.state.data = some v)
    (hfn : q.options.queryFn = QueryFn.resolves v)
    (hflight : q.inFlight = none) :
    (∃ q2 : Query,
      (handleQueryAction currentDeviceId now
          { queryHash := h, queryKey := [], data := none,
            action := QueryAction.restoreLoading,
            targetDeviceId := currentDeviceId }
          (handleQueryAction currentDeviceId now
            { queryHash := h, queryKey := [], data := none,
              action := QueryAction.triggerLoading,
              targetDeviceId := currentDeviceId } s).1).1.queryCache h =
        some q2 ∧
      q2.settle.state.status = q.state.status ∧
      q2.settle.state.data = q.state.data ∧
      q2.settle.inFlight = none ∧
      q2.inFlight ≠ some QueryFn.neverResolves) ∧
    (∀ r : Query, r.state.fetchMeta = none →
      (restoreLoading r).inFlight = none ∧
      (restoreLoading r).state =
        { r.state with fetchStatus := FetchStatus.idle,
                       fetchMeta := none }) := by
  have htgt : shouldProcessMessage currentDeviceId currentDeviceId = true := by
    simp [shouldProcessMessage]
  have h1 : handleQueryAction currentDeviceId now
      { queryHash := h, queryKey := [], data := none,
        action := QueryAction.triggerLoading,
        targetDeviceId := currentDeviceId } s =
      (setQueryAt s h (some (triggerLoading q)), []) := by
    simp [handleQueryAction, hdev, htgt, hq]
  have hlook : (setQueryAt s h (some (triggerLoading q))).queryCache h =
      some (triggerLoading q) := by
    simp [setQueryAt, updateQueryCache]
  have h2 : handleQueryAction currentDeviceId now
      { queryHash := h, queryKey := [], data := none,
        action := QueryAction.restoreLoading,
        targetDeviceId := currentDeviceId }
      (setQueryAt s h (some (triggerLoading q))) =
      (setQueryAt (setQueryAt s h (some (triggerLoading q))) h
        (some (restoreLoading (triggerLoading q))), []) := by
    simp [handleQueryAction, hdev, htgt, hlook]
  refine ⟨⟨restoreLoading (triggerLoading q), ?_, ?_, ?_, ?_, ?_⟩, ?_⟩
  case _ =>
    simp only [h1]
    rw [h2]
    simp [setQueryAt, updateQueryCache]
  case _ =>
    simp [triggerLoading, restoreLoading, Query.fetch, Query.setState,
      Query.cancel, Query.settle, hfn, hstatus]
  case _ =>
    simp [triggerLoading, restoreLoading, Query.fetch, Query.setState,
      Query.cancel, Query.settle, hfn, hdata]
  case _ =>
    simp [triggerLoading, restoreLoading, Query.fetch, Query.setState,
      Query.cancel, Query.settle, hfn]
  case _ =>
    simp [triggerLoading, restoreLoading, Query.fetch, Query.setState,
      Query.cancel, Query.settle, hfn]
  case _ =>
    intro r hr
    constructor
    case _ =>
      cases hfl : r.inFlight <;>
        simp [restoreLoading, hr, Query.cancel, Query.setState, hfl]
    case _ =>
      simp [restoreLoading, hr, Query.cancel, Query.setState]

/-- Witness for C2 on the example device state and its settled query. -/
theorem trigger_restore_loading_roundtrip_witness :
    (∃ q2 : Query,
      (handleQueryAction "dev-A" 9
          { queryHash := "h1", queryKey := [], data := none,
            action := QueryAction.restoreLoading,
            targetDeviceId := "dev-A" }
          (handleQueryAction "dev-A" 9
            { queryHash := "h1", queryKey := [], data := none,
              action := QueryAction.triggerLoading,
              targetDeviceId := "dev-A" } exampleDeviceState).1).1.queryCache
          "h1" =
        some q2 ∧
      q2.settle.state.status = exampleQuery.state.status ∧
      q2.settle.state.data = exampleQuery.state.data ∧
      q2.settle.inFlight = none ∧
      q2.inFlight ≠ some QueryFn.neverResolves) ∧
    (∀ r : Query, r.state.fetchMeta = none →
      (restoreLoading r).inFlight = none ∧
      (restoreLoading r).state =
        { r.state with fetchStatus := FetchStatus.idle,
                       fetchMeta := none }) :=
  trigger_restore_loading_roundtrip "dev-A" "h1" exampleDeviceState
    exampleQuery 7 9 (by decide) (by decide) (by decide) (by decide)
    (by decide) (by decide)

/-- A query sitting in the cache in an error state with no data, whose query
function would resolve to 5. -/
def exampleErrorQuery : Query :=
  { state :=
      { status := QueryStatus.error
        data := none
        error := true
        fetchStatus := FetchStatus.idle
        fetchMeta := none
        dataUpdatedAt := 0
        isInvalidated := false }
    options := { queryFn := QueryFn.resolves 5 }
    revertState := none
    inFlight := none }

/-- A device state holding the error-state query under hash h1. -/
def exampleErrorDeviceState : DeviceState :=
  { queryCache := fun k => if k = "h1" then some exampleErrorQuery else none
    mutationCache := []
    isOnline := true
    storage := []
    fetchDisposerId := none
    xhrDisposerId := none
    wsDisposerId := none
    nextDisposerId := 0
    disposedLog := [] }

/-- The cache entry at h1 after a targeted trigger-loading then
restore-loading on the error-state query. -/
def restoredErrorQueryAtH1 : Option Query :=
  (handleQueryAction "dev-A" 0
    { queryHash := "h1", queryKey := [], data := none,
      action := QueryAction.restoreLoading, targetDeviceId := "dev-A" }
    (handleQueryAction "dev-A" 0
      { queryHash := "h1", queryKey := [], data := none,
        action := QueryAction.triggerLoading, targetDeviceId := "dev-A" }
      exampleErrorDeviceState).1).1.queryCache "h1"

/-- Counterexample to C2 as stated: the claim quantifies over every query in
the cache, but on a query whose pre-trigger state is the error status with
no data, the trigger-loading then restore-loading pair does not return it to
that state: restore overwrites the state with the forced pending state and
re-issues the stashed fetch, so once that fetch settles the query is at
status success with the refetched data 5, not at its pre-trigger status and
data. -/
theorem trigger_restore_loading_roundtrip_counterexample :
    exampleErrorQuery.state.status = QueryStatus.error ∧
    exampleErrorQuery.state.data = none ∧
    restoredErrorQueryAtH1.map (fun q2 => q2.settle.state.status) =
      some QueryStatus.success ∧
    restoredErrorQueryAtH1.map (fun q2 => q2.settle.state.status) ≠
      some exampleErrorQuery.state.status ∧
    restoredErrorQueryAtH1.map (fun q2 => q2.settle.state.data) =
      some (some 5) ∧
    restoredErrorQueryAtH1.map (fun q2 => q2.settle.state.data) ≠
      some exampleErrorQuery.state.data ∧
    restoredErrorQueryAtH1.map (fun q2 => q2.settle.inFlight) = some none := by
  decide

/-- A teardown state in which the fetch interceptor disposer throws while
the xhr and websocket disposers are installed and healthy. -/
def teardownThrowingState : TeardownState :=
  { queryActionSub := { throws := false, disposed := false }
    initialStateSub := { throws := false, disposed := false }
    onlineManagerSub := { throws := false, disposed := false }
    asyncStorageActionSub := { throws := false, disposed := false }
    asyncStorageRequestSub := { throws := false, disposed := false }
    networkMonitoringSub := { throws := false, disposed := false }
    networkRequestSub := { throws := false, disposed := false }
    expoCommandActionSub := { throws := false, disposed := false }
    expoDevToolsRequestSub := { throws := false, disposed := false }
    fetchDisposerRef := some { throws := true, disposed := false }
    xhrDisposerRef := some { throws := false, disposed := false }
    wsDisposerRef := some { throws := false, disposed := false }
    cacheUnsubscribe := { throws := false, disposed := false }
    invoked := [] }

/-- A teardown state in which every handle is installed and healthy. -/
def teardownHealthyState : TeardownState :=
  { queryActionSub := { throws := false, disposed := false }
    initialStateSub := { throws := false, disposed := false }
    onlineManagerSub := { throws := false, disposed := false }
    asyncStorageActionSub := { throws := false, disposed := false }
    asyncStorageRequestSub := { throws := false, disposed := false }
    networkMonitoringSub := { throws := false, disposed := false }
    networkRequestSub := { throws := false, disposed := false }
    expoCommandActionSub := { throws := false, disposed := false }
    expoDevToolsRequestSub := { throws := false, disposed := false }
    fetchDisposerRef := some { throws := false, disposed := false }
    xhrDisposerRef := some { throws := false, disposed := false }
    wsDisposerRef := some { throws := false, disposed := false }
    cacheUnsubscribe := { throws := false, disposed := false }
    invoked := [] }

/-- Counterexample to C9 as stated: with the fetch disposer throwing, the
cleanup lets the exception escape, never invokes the xhr and websocket
disposers (their refs remain set, nothing is appended to the invocation
log) and never runs the cache unsubscribe: the calls are not attempted
independently. -/
theorem teardown_not_exception_isolated :
    (cleanupEffect teardownThrowingState).2 = true ∧
    (cleanupEffect teardownThrowingState).1.xhrDisposerRef =
      some { throws := false, disposed := false } ∧
    (cleanupEffect teardownThrowingState).1.wsDisposerRef =
      some { throws := false, disposed := false } ∧
    "xhr" ∉ (cleanupEffect teardownThrowingState).1.invoked ∧
    "websocket" ∉ (cleanupEffect teardownThrowingState).1.invoked ∧
    (cleanupEffect teardownThrowingState).1.cacheUnsubscribe.disposed =
      false := by
  decide

/-- C9 amended: when no handle throws, one pass of the cleanup removes
every socket subscription, invokes every installed interceptor disposer and
clears its ref, and runs the cache unsubscribe, with no exception escaping;
a throwing handle, however, aborts the remainder of the pass (see the
counterexample), so the calls are sequential, not independent. -/
theorem teardown_removes_all_when_none_throws (s : TeardownState)
    (h : s.noThrows = true) :
    (cleanupEffect s).2 = false ∧
    (cleanupEffect s).1.queryActionSub.disposed = true ∧
    (cleanupEffect s).1.initialStateSub.disposed = true ∧
    (cleanupEffect s).1.onlineManagerSub.disposed = true ∧
    (cleanupEffect s).1.asyncStorageActionSub.disposed = true ∧
    (cleanupEffect s).1.asyncStorageRequestSub.disposed = true ∧
    (cleanupEffect s).1.networkMonitoringSub.disposed = true ∧
    (cleanupEffect s).1.networkRequestSub.disposed = true ∧
    (cleanupEffect s).1.expoCommandActionSub.disposed = true ∧
    (cleanupEffect s).1.expoDevToolsRequestSub.disposed = true ∧
    (cleanupEffect s).1.cacheUnsubscribe.disposed = true ∧
    (cleanupEffect s).1.fetchDisposerRef = none ∧
    (cleanupEffect s).1.xhrDisposerRef = none ∧
    (cleanupEffect s).1.wsDisposerRef = none ∧
    (s.fetchDisposerRef.isSome = true →
      "fetch" ∈ (cleanupEffect s).1.invoked) ∧
    (s.xhrDisposerRef.isSome = true →
      "xhr" ∈ (cleanupEffect s).1.invoked) ∧
    (s.wsDisposerRef.isSome = true →
      "websocket" ∈ (cleanupEffect s).1.invoked) := by
  obtain ⟨⟨t1, d1⟩, ⟨t2, d2⟩, ⟨t3, d3⟩, ⟨t4, d4⟩, ⟨t5, d5⟩, ⟨t6, d6⟩,
    ⟨t7, d7⟩, ⟨t8, d8⟩, ⟨t9, d9⟩, f, x, w, ⟨tc, dc⟩, inv⟩ := s
  rcases f with _ | ⟨tf, df⟩ <;> rcases x with _ | ⟨tx, dx⟩ <;>
    rcases w with _ | ⟨tw, dw⟩ <;>
    simp only [TeardownState.noThrows, Bool.and_eq_true,
      Bool.not_eq_true'] at h <;>
    simp_all [cleanupEffect, offDisposable]

/-- Witness for the amended C9 on a fully installed healthy state. -/
theorem teardown_removes_all_when_none_throws_witness :
    (cleanupEffect teardownHealthyState).2 = false ∧
    "websocket" ∈ (cleanupEffect teardownHealthyState).1.invoked := by
  have H := teardown_removes_all_when_none_throws teardownHealthyState
    (by decide)
  exact ⟨H.1, H.2.2.2.2.2.2.2.2.2.2.2.2.2.2.2.2 (by decide)⟩

end RQSync
